import Mathlib

set_option maxRecDepth 100000

/-!
Verification of `vf_genericshader.c` (ffmpeg-gl generic OpenGL shader filter).

The development shallow-embeds the file's pure computations and the
observable effects of its GL / file-system calls:

* the per-frame progress computation of `filter_frame`
  (`ts = pts / (float)den - offset; progress = FFMAX(0, FFMIN(1, ts/duration))`),
  modelled over exact rationals extended with the IEEE-754 special values
  `+inf`, `-inf`, `NaN` that the float division can produce (finite
  arithmetic is modelled exactly; the inputs used in the theorems are
  exactly representable, so no rounding is lost);
* the fragment-shader source composition of `build_program`
  (`snprintf` of the transition body into `f_shader_template`);
* the setup / teardown resource lifecycle (`config_props`, `build_program`,
  `build_shader`, `uninit`) over an abstract GL-driver / file-system
  environment;
* the idealized per-pixel semantics of the render/readback cycle with the
  built-in default transition (GL linear sampling equations over ℚ).
-/

namespace GenericShader

/-! ### IEEE-style float values for the progress computation

`filter_frame` computes (vf_genericshader.c:253-254):

    const float ts = in->pts / (float)inlink->time_base.den - c->offset;
    const float progress = FFMAX(0.0f, FFMIN(1.0f, ts / c->duration));

Floats are modelled as exact rationals extended with the IEEE-754 special
values; `fdiv` implements IEEE division including division by zero
(signed zeros are not modelled: no operand below is a negative zero). -/

inductive FVal where
  | fin : ℚ → FVal
  | pInf : FVal
  | nInf : FVal
  | nan : FVal
deriving DecidableEq, Repr

/-- IEEE-754 `>` comparison: any comparison with NaN is false. -/
def fgt : FVal → FVal → Bool
  | .fin a, .fin b => decide (b < a)
  | .fin _, .pInf => false
  | .fin _, .nInf => true
  | .fin _, .nan => false
  | .pInf, .fin _ => true
  | .pInf, .pInf => false
  | .pInf, .nInf => true
  | .pInf, .nan => false
  | .nInf, _ => false
  | .nan, _ => false

/-- IEEE-754 division on the modelled values: a nonzero finite numerator
divided by zero gives a signed infinity, `0 / 0` gives NaN. -/
def fdiv : FVal → FVal → FVal
  | .fin a, .fin b =>
      if b = 0 then
        if a = 0 then .nan else if 0 < a then .pInf else .nInf
      else .fin (a / b)
  | .fin _, .pInf => .fin 0
  | .fin _, .nInf => .fin 0
  | .pInf, .fin b => if 0 ≤ b then .pInf else .nInf
  | .nInf, .fin b => if 0 ≤ b then .nInf else .pInf
  | .pInf, .pInf => .nan
  | .pInf, .nInf => .nan
  | .nInf, .pInf => .nan
  | .nInf, .nInf => .nan
  | .nan, _ => .nan
  | _, .nan => .nan

/-- IEEE-754 subtraction on the modelled values. -/
def fsub : FVal → FVal → FVal
  | .fin a, .fin b => .fin (a - b)
  | .fin _, .pInf => .nInf
  | .fin _, .nInf => .pInf
  | .pInf, .fin _ => .pInf
  | .nInf, .fin _ => .nInf
  | .pInf, .pInf => .nan
  | .pInf, .nInf => .pInf
  | .nInf, .pInf => .nInf
  | .nInf, .nInf => .nan
  | .nan, _ => .nan
  | _, .nan => .nan

/-- ffmpeg macro `FFMAX(a,b) ((a) > (b) ? (a) : (b))`. -/
def ffmax (a b : FVal) : FVal := if fgt a b then a else b

/-- ffmpeg macro `FFMIN(a,b) ((a) > (b) ? (b) : (a))`. -/
def ffmin (a b : FVal) : FVal := if fgt a b then b else a

/-- `ts` of `filter_frame` (vf_genericshader.c:253):
`in->pts / (float)inlink->time_base.den - c->offset`. -/
def tsOf (pts den offset : ℚ) : FVal :=
  fsub (fdiv (.fin pts) (.fin den)) (.fin offset)

/-- `progress` of `filter_frame` (vf_genericshader.c:254):
`FFMAX(0.0f, FFMIN(1.0f, ts / c->duration))`. -/
def progressOf (pts den offset duration : ℚ) : FVal :=
  ffmax (.fin 0) (ffmin (.fin 1) (fdiv (tsOf pts den offset) (.fin duration)))

/-! ### Shader source composition

`build_program` (vf_genericshader.c:130-139) composes the fragment shader
by `snprintf`-substituting the transition body for the single `%s` of
`f_shader_template`, into a buffer of `strlen(f_shader_template) +
strlen(transition_source)` bytes.  The braces of the GLSL text are
written with their escape codes. -/

/-- `v_shader_source` (vf_genericshader.c:21-28). -/
def v_shader_source : String :=
  "attribute vec2 position;\nvarying vec2 _uv;\nvoid main(void) \x7b\n  gl_Position = vec4(position, 0, 1);\n  vec2 uv = position * 0.5 + 0.5;\n  _uv = uv;\n\x7d\n"

/-- `f_shader_template` (vf_genericshader.c:30-40), with its `%s`
placeholder. -/
def f_shader_template : String :=
  "uniform sampler2D to;\nvarying vec2 _uv;\nuniform float progress;\nuniform vec2 resolution;\n\n%s\n\nvoid main() \x7b\n  gl_FragColor = transition(_uv);\n\x7d\n"

/-- The template text before the `%s` placeholder. -/
def f_template_pre : String :=
  "uniform sampler2D to;\nvarying vec2 _uv;\nuniform float progress;\nuniform vec2 resolution;\n\n"

/-- The template text after the `%s` placeholder. -/
def f_template_post : String :=
  "\n\nvoid main() \x7b\n  gl_FragColor = transition(_uv);\n\x7d\n"

/-- `f_default_transition_source` (vf_genericshader.c:43-46): the
built-in passthrough transition, which ignores `progress`. -/
def f_default_transition_source : String :=
  "vec4 transition (vec2 uv) \x7b\n  return texture2D(to, uv);\n\x7d\n"

/-- The composed fragment-shader source: `printf`-style substitution of
the transition body for the template's single `%s`. -/
def composeShaderSource (body : String) : String :=
  f_template_pre ++ body ++ f_template_post

/-- `snprintf(buf, size, f_shader_template, body)` writes at most
`size - 1` characters of the composed text (plus the NUL terminator). -/
def snprintfCompose (size : Nat) (body : String) : String :=
  ⟨(composeShaderSource body).data.take (size - 1)⟩

/-- The buffer length `build_program` allocates for the composed source
(vf_genericshader.c:133): `strlen(f_shader_template) +
strlen(transition_source)`. -/
def allocLen (body : String) : Nat :=
  f_shader_template.length + body.length

/-- `isPrefixOfL p s`: does `p` occur at the head of `s`? -/
def isPrefixOfL : List Char → List Char → Bool
  | [], _ => true
  | _ :: _, [] => false
  | a :: p, b :: s => a = b && isPrefixOfL p s

/-- Number of positions of `s` (including its end) at which `p` occurs. -/
def countOccur (p : List Char) : List Char → Nat
  | [] => if isPrefixOfL p [] then 1 else 0
  | c :: rest =>
      (if isPrefixOfL p (c :: rest) then 1 else 0) + countOccur p rest

/-- `p` occurs in `s` at position `i`. -/
def occursAtB (p s : List Char) (i : Nat) : Bool :=
  isPrefixOfL p (s.drop i)

/-! ### Setup and teardown lifecycle

`config_props` (vf_genericshader.c:203-233), `build_program`
(vf_genericshader.c:99-159), `build_shader` (vf_genericshader.c:84-97)
and `uninit` (vf_genericshader.c:281-294), over an abstract GL-driver /
file-system environment.  The environment fixes which external calls
succeed and what the driver and file system return; the model records
the resources whose creation succeeded and the state fields of
`GenericShaderContext` that the code writes. -/

/-- The resources tracked by the claims: GLFW window, GL program, frame
texture, quad position buffer, and the composed-source heap buffer. -/
inductive Res where
  | window : Res
  | program : Res
  | frameTex : Res
  | posBuf : Res
  | srcBuf : Res
deriving DecidableEq, Repr

/-- The fields of `GenericShaderContext` relevant to the lifecycle.
ffmpeg zero-initializes the private context, so GL handle fields start
at `0` and pointer fields at NULL (`false` / `none`). -/
structure GSState where
  window : Bool
  program : Nat
  frame_tex : Nat
  pos_buf : Nat
  f_shader_source : Option String
deriving DecidableEq, Repr

def initState : GSState := ⟨false, 0, 0, 0, none⟩

/-- Outcomes of the external calls made during configuration. -/
structure Env where
  windowOk : Bool      -- glfwCreateWindow returns non-NULL
  vShaderOk : Bool     -- vertex-shader build succeeds
  hasSource : Bool     -- gs->source was configured
  openOk : Bool        -- fopen succeeds
  readOk : Bool        -- fread succeeds
  contents : String    -- the file's bytes (what a successful read yields)
  garbage : String     -- malloc'd buffer content left when the read fails
  allocOk : Bool       -- av_calloc succeeds
  fShaderOk : Bool     -- fragment-shader build succeeds
  programHandle : Nat  -- handle returned by glCreateProgram
  linkOk : Bool        -- GL_LINK_STATUS
  bufHandle : Nat      -- name returned by glGenBuffers
  texHandle : Nat      -- name returned by glGenTextures

/-- The file-loading block of `build_program` (vf_genericshader.c:111-128):
`fopen` failure returns `-1`; the result of `fread` is NOT checked, so on
a read failure the NUL-terminated buffer holds whatever `malloc`
returned. -/
def loadSource (e : Env) : Except Int (Option String) :=
  if e.hasSource then
    if e.openOk then .ok (some (if e.readOk then e.contents else e.garbage))
    else .error (-1)
  else .ok none

/-- `build_program` (vf_genericshader.c:99-159) acting on the context
state: returns the updated state, the return code, and the resources
created along the way (in creation order).  `AVERROR(ENOMEM)` is `-12`. -/
def build_program_m (e : Env) (s : GSState) : GSState × Int × List Res :=
  if !e.vShaderOk then (s, -1, [])
  else
    match loadSource e with
    | .error c => (s, c, [])
    | .ok srcOpt =>
        if !e.allocOk then (s, -12, [])
        else
          let transition_source := srcOpt.getD f_default_transition_source
          let s2 := { s with
            f_shader_source := some (composeShaderSource transition_source) }
          if !e.fShaderOk then (s2, -1, [Res.srcBuf])
          else
            let s3 := { s2 with program := e.programHandle }
            if e.linkOk then (s3, 0, [Res.srcBuf, Res.program])
            else (s3, -1, [Res.srcBuf, Res.program])

/-- `config_props` (vf_genericshader.c:203-233): window creation, then
`build_program`, then `vbo_setup` (vf_genericshader.c:161-170) and
`tex_setup` (vf_genericshader.c:172-189). -/
def config_props_m (e : Env) : GSState × Int × List Res :=
  if !e.windowOk then (initState, -1, [])
  else
    let s1 : GSState := { initState with window := true }
    let r := build_program_m e s1
    if r.2.1 < 0 then (r.1, r.2.1, Res.window :: r.2.2)
    else
      let s4 := { r.1 with pos_buf := e.bufHandle, frame_tex := e.texHandle }
      (s4, 0, Res.window :: r.2.2 ++ [Res.posBuf, Res.frameTex])

/-- GL semantics of `glDeleteTextures` / `glDeleteProgram` /
`glDeleteBuffers`: the name `0` is silently ignored, so no resource is
destroyed by such a call. -/
def glDeleteIfCreated (h : Nat) (r : Res) : List Res :=
  if h = 0 then [] else [r]

/-- `uninit` (vf_genericshader.c:281-294): the resources actually
released at teardown, in the order the code releases them. -/
def uninit_m (s : GSState) : List Res :=
  (if s.window then
    glDeleteIfCreated s.frame_tex Res.frameTex ++
    glDeleteIfCreated s.program Res.program ++
    glDeleteIfCreated s.pos_buf Res.posBuf ++
    [Res.window]
   else []) ++
  (if s.f_shader_source.isSome then [Res.srcBuf] else [])

/-- Outcome of the `glCreateShader` / `glCompileShader` calls that
`build_shader` makes, together with the diagnostic text the driver holds
(readable via `glGetShaderInfoLog`, which the code never calls). -/
structure ShaderEnv where
  created : Nat      -- glCreateShader result; 0 = creation rejected
  compileOk : Bool   -- GL_COMPILE_STATUS
  infoLog : String   -- the driver's diagnostic text for the source

/-- `build_shader` (vf_genericshader.c:84-97): returns the shader handle
on success and the bare value `0` on any failure. -/
def build_shader (e : ShaderEnv) : Nat :=
  if e.created = 0 then 0
  else if e.compileOk then e.created else 0

/-! ### Per-frame render/readback with the default transition

Idealized per-pixel semantics of `filter_frame`
(vf_genericshader.c:236-267) with the built-in passthrough transition:
GL's linear-filtering sample equations and the vertex shader's
`uv = position * 0.5 + 0.5`, over exact rationals.  The full-screen quad
`position` (vf_genericshader.c:18-19) covers all of NDC `[-1,1]²` and
`_uv` is affine in `position`, so the rasterized varying at a pixel
center equals the vertex mapping applied to that center. -/

/-- An RGB24 frame: pixel `(x, y)` holds one byte per channel. -/
def Img : Type := Nat → Nat → Nat × Nat × Nat

/-- `GL_CLAMP_TO_EDGE`: texel indices are clamped to `[0, n-1]`. -/
def clampIdx (i : ℤ) (n : Nat) : Nat :=
  Int.toNat (max 0 (min i ((n : ℤ) - 1)))

/-- The texel at (clamped) integer coordinates, as channel values in
`[0,1]` (GL normalizes `GL_UNSIGNED_BYTE` data by `1/255`). -/
def texColor (img : Img) (W H : Nat) (i j : ℤ) : ℚ × ℚ × ℚ :=
  let p := img (clampIdx i W) (clampIdx j H)
  ((p.1 : ℚ) / 255, (p.2.1 : ℚ) / 255, (p.2.2 : ℚ) / 255)

/-- `texture2D` with `GL_LINEAR` filtering: the GL sample equations
`u = s·W - 1/2`, bilinear blend of the four nearest texels. -/
def texture2D (img : Img) (W H : Nat) (u v : ℚ) : ℚ × ℚ × ℚ :=
  let su := u * W - 1/2
  let sv := v * H - 1/2
  let i0 := Int.floor su
  let j0 := Int.floor sv
  let a := su - i0
  let b := sv - j0
  let c00 := texColor img W H i0 j0
  let c10 := texColor img W H (i0 + 1) j0
  let c01 := texColor img W H i0 (j0 + 1)
  let c11 := texColor img W H (i0 + 1) (j0 + 1)
  ((1 - a) * (1 - b) * c00.1 + a * (1 - b) * c10.1
      + (1 - a) * b * c01.1 + a * b * c11.1,
   (1 - a) * (1 - b) * c00.2.1 + a * (1 - b) * c10.2.1
      + (1 - a) * b * c01.2.1 + a * b * c11.2.1,
   (1 - a) * (1 - b) * c00.2.2 + a * (1 - b) * c10.2.2
      + (1 - a) * b * c01.2.2 + a * b * c11.2.2)

/-- NDC coordinate of the center of window pixel `x` out of `W`. -/
def pixelCenterNDC (x W : Nat) : ℚ := ((x : ℚ) + 1/2) * 2 / W - 1

/-- The vertex shader's varying (vf_genericshader.c:26-27):
`uv = position * 0.5 + 0.5`. -/
def vertexUV (p : ℚ × ℚ) : ℚ × ℚ :=
  (p.1 * 0.5 + 0.5, p.2 * 0.5 + 0.5)

/-- `f_default_transition_source` as a function: samples the frame
texture at `uv` and ignores `progress`. -/
def defaultTransition (img : Img) (W H : Nat) (progress : ℚ)
    (uv : ℚ × ℚ) : ℚ × ℚ × ℚ :=
  texture2D img W H uv.1 uv.2

/-- `glReadPixels` conversion of a clamped `[0,1]` color channel back to
a `GL_UNSIGNED_BYTE` value: round(clamp(c)·255). -/
def channelToByte (c : ℚ) : Nat :=
  Int.toNat (round (max 0 (min 1 c) * 255))

/-- One frame of the render/readback cycle of `filter_frame` with the
default transition: every output pixel is the fragment-shader result at
that pixel's interpolated `uv`, read back as bytes. -/
def renderReadback (img : Img) (W H : Nat) (progress : ℚ) : Img :=
  fun x y =>
    let uv := vertexUV (pixelCenterNDC x W, pixelCenterNDC y H)
    let col := defaultTransition img W H progress uv
    (channelToByte col.1, channelToByte col.2.1, channelToByte col.2.2)

end GenericShader

namespace GenericShader

theorem ffmin_one_cases (y : FVal) :
    ffmin (.fin 1) y = .fin 1 ∨ ffmin (.fin 1) y = .nInf ∨
      ∃ q : ℚ, q < 1 ∧ ffmin (.fin 1) y = .fin q := by
  cases y with
  | fin q =>
      by_cases h : q < 1
      · exact Or.inr (Or.inr ⟨q, h, by simp [ffmin, fgt, h]⟩)
      · simp [ffmin, fgt, h]
  | pInf => simp [ffmin, fgt]
  | nInf => simp [ffmin, fgt]
  | nan => simp [ffmin, fgt]

/-- C1: for every `pts`, `den`, `offset` and any `duration > 0`, the
progress value computed by `filter_frame` is a finite value in `[0,1]`
(no special value ever reaches the `progress` uniform). -/
theorem progress_in_unit_interval (pts den offset duration : ℚ)
    (hdur : 0 < duration) :
    ∃ q : ℚ, progressOf pts den offset duration = .fin q ∧ 0 ≤ q ∧ q ≤ 1 := by
  unfold progressOf
  rcases ffmin_one_cases (fdiv (tsOf pts den offset) (.fin duration)) with h | h | ⟨q, hq, h⟩
  · rw [h]; exact ⟨1, by simp [ffmax, fgt], by norm_num, le_refl 1⟩
  · rw [h]; exact ⟨0, by simp [ffmax, fgt], le_refl 0, by norm_num⟩
  · rw [h]
    by_cases h0 : q < 0
    · exact ⟨0, by simp [ffmax, fgt, h0], le_refl 0, by norm_num⟩
    · exact ⟨q, by simp [ffmax, fgt, h0], le_of_not_lt h0, le_of_lt hq⟩

/-- Witness for C1 at `pts = 7`, `den = 2`, `offset = 1`, `duration = 2`. -/
theorem progress_in_unit_interval_witness :
    (0 : ℚ) < 2 ∧ ∃ q : ℚ,
      progressOf 7 2 1 2 = .fin q ∧ 0 ≤ q ∧ q ≤ 1 :=
  ⟨by norm_num, progress_in_unit_interval 7 2 1 2 (by norm_num)⟩

theorem tsOf_eq (pts den off : ℚ) (hden : den ≠ 0) :
    tsOf pts den off = .fin (pts / den - off) := by
  simp [tsOf, fdiv, fsub, hden]

/-- The C clamp `FFMAX(0, FFMIN(1, x))` on finite values is the exact
rational clamp. -/
theorem ffmax_ffmin_fin (x : ℚ) :
    ffmax (.fin 0) (ffmin (.fin 1) (.fin x)) = .fin (max 0 (min 1 x)) := by
  by_cases hx1 : x < 1
  · have hmin : min 1 x = x := min_eq_right (le_of_lt hx1)
    by_cases hx0 : x < 0
    · have hmax : max 0 (min 1 x) = 0 := by
        rw [hmin]; exact max_eq_left (le_of_lt hx0)
      norm_num [ffmax, ffmin, fgt, hx1, hx0, hmax]
    · have hmax : max 0 (min 1 x) = x := by
        rw [hmin]; exact max_eq_right (le_of_not_lt hx0)
      norm_num [ffmax, ffmin, fgt, hx1, hx0, hmax]
  · have hmax : max 0 (min 1 x) = 1 := by
      rw [min_eq_left (le_of_not_lt hx1)]
      exact max_eq_right (by norm_num)
    norm_num [ffmax, ffmin, fgt, hx1, hmax]

/-- With nonzero denominator and duration the whole computation stays
finite and equals the exact clamp `max 0 (min 1 ((pts/den - off)/dur))`. -/
theorem progressOf_eq_clamp (pts den off dur : ℚ) (hden : den ≠ 0)
    (hdur : dur ≠ 0) :
    progressOf pts den off dur
      = .fin (max 0 (min 1 ((pts / den - off) / dur))) := by
  have h3 : fdiv (tsOf pts den off) (.fin dur)
      = .fin ((pts / den - off) / dur) := by
    rw [tsOf_eq pts den off hden]; simp [fdiv, hdur]
  rw [progressOf, h3, ffmax_ffmin_fin]

/-- C2 counterexample: with `duration = 0`, `timeBaseDenominator = 1`,
`offset = 0`, the frame at `pts = -1` gets progress `0.0`, not `1.0`:
the claim "progress = 1.0 for every pts" fails on the code. -/
theorem progress_zero_duration_cex :
    progressOf (-1) 1 0 0 = .fin 0 ∧ FVal.fin 0 ≠ FVal.fin 1 := by
  constructor
  · norm_num [progressOf, tsOf, fdiv, fsub, ffmin, ffmax, fgt]
  · simp

/-- C2 (amended): with `duration = 0` the code performs the float
division by zero, but the `FFMAX`/`FFMIN` clamp absorbs the resulting
special value, so no infinity or NaN reaches the uniform: progress is
`1.0` whenever the elapsed time `pts/den - offset` is nonnegative, and
`0.0` when it is negative. -/
theorem progress_zero_duration (pts den off : ℚ) (hden : den ≠ 0) :
    (0 ≤ pts / den - off → progressOf pts den off 0 = .fin 1) ∧
    (pts / den - off < 0 → progressOf pts den off 0 = .fin 0) := by
  have h2 := tsOf_eq pts den off hden
  constructor
  · intro hts
    rcases lt_or_eq_of_le hts with hpos | hzero
    · have : fdiv (tsOf pts den off) (.fin 0) = .pInf := by
        rw [h2]; simp [fdiv, ne_of_gt hpos, hpos]
      rw [progressOf, this]; simp [ffmin, ffmax, fgt]
    · have : fdiv (tsOf pts den off) (.fin 0) = .nan := by
        rw [h2]; simp [fdiv, ← hzero]
      rw [progressOf, this]; simp [ffmin, ffmax, fgt]
  · intro hts
    have : fdiv (tsOf pts den off) (.fin 0) = .nInf := by
      rw [h2]; simp [fdiv, ne_of_lt hts, not_lt_of_lt hts]
    rw [progressOf, this]; simp [ffmin, ffmax, fgt]

/-- Witness for the amended C2 at `pts = 5`, `den = 1`, `offset = 1`. -/
theorem progress_zero_duration_witness :
    (1 : ℚ) ≠ 0 ∧
      ((0 ≤ (5 : ℚ) / 1 - 1 → progressOf 5 1 1 0 = .fin 1) ∧
       ((5 : ℚ) / 1 - 1 < 0 → progressOf 5 1 1 0 = .fin 0)) :=
  ⟨by norm_num, progress_zero_duration 5 1 1 (by norm_num)⟩

/-- C3: with `duration = 1`, `offset = 0`, `timeBaseDenominator = 1`,
the progress computation maps `pts = 0` to `0.0`, `pts = 1` to `1.0` and
`pts = 2` to `1.0` (clamped). -/
theorem progress_reference_points :
    progressOf 0 1 0 1 = .fin 0 ∧ progressOf 1 1 0 1 = .fin 1 ∧
      progressOf 2 1 0 1 = .fin 1 := by
  refine ⟨?_, ?_, ?_⟩ <;>
    norm_num [progressOf, tsOf, fdiv, fsub, ffmin, ffmax, fgt]

/-- C4: for fixed positive `den` and `duration` and fixed `offset`, the
computed progress is monotonically non-decreasing in `pts`. -/
theorem progress_monotone_in_pts (p1 p2 den off dur : ℚ)
    (hden : 0 < den) (hdur : 0 < dur) (h : p1 ≤ p2) :
    ∃ q1 q2 : ℚ, progressOf p1 den off dur = .fin q1 ∧
      progressOf p2 den off dur = .fin q2 ∧ q1 ≤ q2 := by
  refine ⟨_, _, progressOf_eq_clamp p1 den off dur (ne_of_gt hden) (ne_of_gt hdur),
    progressOf_eq_clamp p2 den off dur (ne_of_gt hden) (ne_of_gt hdur), ?_⟩
  gcongr

/-- Witness for C4 at `p1 = 1`, `p2 = 3`, `den = 2`, `offset = 0`,
`duration = 2`. -/
theorem progress_monotone_in_pts_witness :
    (1 : ℚ) ≤ 3 ∧ ∃ q1 q2 : ℚ, progressOf 1 2 0 2 = .fin q1 ∧
      progressOf 3 2 0 2 = .fin q2 ∧ q1 ≤ q2 :=
  ⟨by norm_num, progress_monotone_in_pts 1 3 2 0 2 (by norm_num) (by norm_num)
    (by norm_num)⟩

/-- Splitting the template at its `%s` placeholder. -/
theorem template_split :
    f_shader_template = f_template_pre ++ ("%s") ++ f_template_post := by
  decide

theorem isPrefixOfL_append (p : List Char) :
    ∀ u t, isPrefixOfL p u = true → isPrefixOfL p (u ++ t) = true := by
  induction p with
  | nil => intro u t _; rfl
  | cons a p ih =>
      intro u t h
      cases u with
      | nil => simp [isPrefixOfL] at h
      | cons b u =>
          rw [List.cons_append]
          simp only [isPrefixOfL, Bool.and_eq_true] at h ⊢
          exact ⟨h.1, ih u t h.2⟩

theorem isPrefixOfL_self_append (p t : List Char) :
    isPrefixOfL p (p ++ t) = true := by
  induction p with
  | nil => rfl
  | cons a p ih => simp [isPrefixOfL, ih]

theorem one_le_countOccur_nil (t : List Char) : 1 ≤ countOccur [] t := by
  cases t with
  | nil => simp [countOccur, isPrefixOfL]
  | cons c rest => simp [countOccur, isPrefixOfL]

theorem countOccur_le_append (p : List Char) :
    ∀ u t, countOccur p u ≤ countOccur p (u ++ t) := by
  intro u
  induction u with
  | nil =>
      intro t
      cases p with
      | nil => simpa [countOccur, isPrefixOfL] using one_le_countOccur_nil t
      | cons a p => simp [countOccur, isPrefixOfL]
  | cons c rest ih =>
      intro t
      rw [List.cons_append]
      simp only [countOccur]
      refine Nat.add_le_add ?_ (ih t)
      by_cases h : isPrefixOfL p (c :: rest) = true
      · have h2 : isPrefixOfL p (c :: (rest ++ t)) = true := by
          simpa using isPrefixOfL_append p (c :: rest) t h
        simp [h, h2]
      · simp [h]

theorem one_le_countOccur_of_append (p u t : List Char)
    (h : 1 ≤ countOccur p u) : 1 ≤ countOccur p (u ++ t) :=
  le_trans h (countOccur_le_append p u t)

/-- C5 counterexample: for the transition body `"void"`, the composed
source contains two occurrences of the body (one at the placeholder, one
in the template's own `void main()`), so the claimed "exactly one
occurrence of B" is false. -/
theorem compose_exactly_one_occurrence_cex :
    countOccur (("void").data) ((composeShaderSource ("void")).data) = 2 ∧
      countOccur (("void").data) ((composeShaderSource ("void")).data) ≠ 1 := by
  decide

/-- C5 (amended): for every transition body, the composed source is the
template's fixed text with the body substituted at the single designated
placeholder (so the body occurs there, and each uniform/varying
declaration of the template occurs verbatim); the body may additionally
occur elsewhere when it also appears in the template's fixed text. -/
theorem compose_substitutes_body (body : String) :
    (composeShaderSource body).data
        = f_template_pre.data ++ body.data ++ f_template_post.data ∧
    occursAtB body.data (composeShaderSource body).data
        f_template_pre.data.length = true ∧
    1 ≤ countOccur (("uniform sampler2D to;").data)
        ((composeShaderSource body).data) ∧
    1 ≤ countOccur (("uniform float progress;").data)
        ((composeShaderSource body).data) ∧
    1 ≤ countOccur (("uniform vec2 resolution;").data)
        ((composeShaderSource body).data) ∧
    1 ≤ countOccur (("varying vec2 _uv;").data)
        ((composeShaderSource body).data) := by
  have hdata : (composeShaderSource body).data
      = f_template_pre.data ++ (body.data ++ f_template_post.data) := by
    simp [composeShaderSource, String.data_append, List.append_assoc]
  refine ⟨by simp [composeShaderSource, String.data_append], ?_, ?_, ?_, ?_, ?_⟩
  · rw [occursAtB, hdata, List.drop_left]
    exact isPrefixOfL_self_append _ _
  all_goals
    rw [hdata]
    exact one_le_countOccur_of_append _ _ _ (by decide)

/-- C6: the buffer `build_program` allocates
(`strlen(f_shader_template) + strlen(body)` bytes) holds the whole
composed source plus its NUL terminator, so the `snprintf` substitution
never truncates it. -/
theorem compose_buffer_sufficient (body : String) :
    snprintfCompose (allocLen body) body = composeShaderSource body ∧
      (composeShaderSource body).length + 1 ≤ allocLen body := by
  have hsplit : f_template_pre.length + 2 + f_template_post.length
      = f_shader_template.length := by decide
  have hclen : (composeShaderSource body).length
      = f_template_pre.length + body.length + f_template_post.length := by
    simp [composeShaderSource, String.length_append]
  constructor
  · unfold snprintfCompose
    have hdlen : (composeShaderSource body).data.length
        = (composeShaderSource body).length := rfl
    have hle : (composeShaderSource body).data.length ≤ allocLen body - 1 := by
      unfold allocLen
      omega
    rw [List.take_of_length_le hle]
  · unfold allocLen
    omega

/-- C7 counterexample: when the file opens but the read fails
(`readOk = false`), `build_program` does not detect it (the `fread`
result is unchecked): configuration succeeds (return `0`) and shader
composition proceeds with the buffer's leftover contents. -/
theorem source_read_failure_cex :
    (config_props_m ⟨true, true, true, true, false, ("vec4 transition"),
        ("GARBAGE"), true, true, 7, true, 3, 5⟩).2.1 = 0 ∧
      (config_props_m ⟨true, true, true, true, false, ("vec4 transition"),
        ("GARBAGE"), true, true, 7, true, 3, 5⟩).1.f_shader_source
        = some (composeShaderSource ("GARBAGE")) := by
  exact ⟨rfl, rfl⟩

/-- C7 (amended): when the configured transition file cannot be OPENED,
configuration fails with the negative return `-1` and shader composition
never happens; a failed read after a successful open is not detected. -/
theorem source_open_failure_aborts (e : Env) (hs : e.hasSource = true)
    (ho : e.openOk = false) :
    (config_props_m e).2.1 = -1 ∧
      (config_props_m e).1.f_shader_source = none := by
  rcases e with ⟨w, v, hsrc, op, rd, ct, gb, al, fs, ph, lk, bh, th⟩
  simp only at hs ho
  subst hs; subst ho
  cases w <;> cases v <;>
    simp [config_props_m, build_program_m, loadSource, initState]

/-- Witness for the amended C7: a configured source path whose `fopen`
fails. -/
theorem source_open_failure_aborts_witness :
    (⟨true, true, true, false, true, ("x"), ("y"), true, true, 7, true, 3, 5⟩
        : Env).hasSource = true ∧
      ((config_props_m ⟨true, true, true, false, true, ("x"), ("y"), true,
          true, 7, true, 3, 5⟩).2.1 = -1 ∧
        (config_props_m ⟨true, true, true, false, true, ("x"), ("y"), true,
          true, 7, true, 3, 5⟩).1.f_shader_source = none) :=
  ⟨rfl, source_open_failure_aborts _ rfl rfl⟩

/-- C8: evaluating the code at the failing input.  When compilation
fails while the driver holds diagnostic text, `build_shader` returns the
bare value `0` whatever that text is (the info log is never queried, so
the caller cannot receive or request it), and configuration fails with
the bare `-1`. -/
theorem build_shader_discards_diagnostic :
    (∀ l1 l2 : String, build_shader ⟨7, false, l1⟩ = build_shader ⟨7, false, l2⟩) ∧
      build_shader ⟨7, false, ("ERROR: 0:12: syntax error")⟩ = 0 ∧
      (config_props_m ⟨true, true, false, true, true, (""), (""), true,
        false, 7, true, 3, 5⟩).2.1 = -1 :=
  ⟨fun _ _ => rfl, rfl, rfl⟩

/-- C9: over every configuration outcome (any subset of the external
calls failing), teardown releases exactly the resources whose creation
succeeded — each exactly once, and never an uncreated one.  (GL's
delete calls silently ignore the name `0` left in never-written,
zero-initialized handle fields.)  The hypotheses state that the driver
hands out nonzero names for successfully created objects. -/
theorem uninit_releases_exactly_created (e : Env)
    (hprog : e.programHandle ≠ 0) (hbuf : e.bufHandle ≠ 0)
    (htex : e.texHandle ≠ 0) :
    ((uninit_m (config_props_m e).1 : List Res) : Multiset Res)
        = ((config_props_m e).2.2 : Multiset Res) ∧
      ((config_props_m e).2.2).Nodup := by
  rcases e with ⟨w, v, hs, op, rd, ct, gb, al, fs, ph, lk, bh, th⟩
  simp only at hprog hbuf htex
  cases w <;> cases v <;> cases hs <;> cases op <;> cases al <;>
    cases fs <;> cases lk <;>
    simp [config_props_m, build_program_m, loadSource, uninit_m,
      glDeleteIfCreated, initState, hprog, hbuf, htex] <;>
    decide

/-- Witness for C9: the fully successful configuration, with driver
handles `7`, `3`, `5`. -/
theorem uninit_releases_exactly_created_witness :
    (7 : Nat) ≠ 0 ∧
      (((uninit_m (config_props_m ⟨true, true, false, true, true, (""),
          (""), true, true, 7, true, 3, 5⟩).1 : List Res) : Multiset Res)
        = ((config_props_m ⟨true, true, false, true, true, (""), (""),
          true, true, 7, true, 3, 5⟩).2.2 : Multiset Res) ∧
       ((config_props_m ⟨true, true, false, true, true, (""), (""), true,
          true, 7, true, 3, 5⟩).2.2).Nodup) :=
  ⟨by decide, uninit_releases_exactly_created _ (by decide) (by decide)
    (by decide)⟩

theorem clampIdx_of_lt (x n : Nat) (h : x < n) : clampIdx (x : ℤ) n = x := by
  unfold clampIdx
  have h1 : min (x : ℤ) ((n : ℤ) - 1) = (x : ℤ) := min_eq_left (by omega)
  rw [h1, max_eq_right (by positivity)]
  exact Int.toNat_natCast x

theorem channelToByte_byte (v : Nat) (h : v ≤ 255) :
    channelToByte ((v : ℚ) / 255) = v := by
  unfold channelToByte
  have h1 : min 1 ((v : ℚ) / 255) = (v : ℚ) / 255 := min_eq_right (by
    rw [div_le_one (by norm_num)]
    exact_mod_cast h)
  have h2 : max 0 ((v : ℚ) / 255) = (v : ℚ) / 255 := max_eq_right (by positivity)
  rw [h1, h2]
  have h3 : (v : ℚ) / 255 * 255 = (v : ℚ) := by field_simp
  rw [h3, round_natCast, Int.toNat_natCast]

/-- Linear sampling exactly at the center of texel `(x, y)` returns that
texel: the sample coordinate `u·W - 1/2` is the integer `x`, so the
bilinear weights degenerate to `1` on the texel itself. -/
theorem texture2D_at_center (img : Img) (W H x y : Nat)
    (hx : x < W) (hy : y < H) :
    texture2D img W H (((x : ℚ) + 1/2) / W) (((y : ℚ) + 1/2) / H)
      = (((img x y).1 : ℚ) / 255, ((img x y).2.1 : ℚ) / 255,
          ((img x y).2.2 : ℚ) / 255) := by
  have hW : (W : ℚ) ≠ 0 := Nat.cast_ne_zero.2 (by omega)
  have hH : (H : ℚ) ≠ 0 := Nat.cast_ne_zero.2 (by omega)
  have hsu : ((x : ℚ) + 1/2) / W * W - 1/2 = (x : ℚ) := by field_simp; ring
  have hsv : ((y : ℚ) + 1/2) / H * H - 1/2 = (y : ℚ) := by field_simp; ring
  simp only [texture2D]
  rw [hsu, hsv, Int.floor_natCast, Int.floor_natCast]
  push_cast
  simp only [sub_self, texColor, clampIdx_of_lt x W hx, clampIdx_of_lt y H hy,
    Prod.ext_iff]
  refine ⟨by ring, by ring, by ring⟩

/-- C10: with the built-in default transition, the render/readback cycle
reproduces the input frame pixel for pixel, for every progress value in
`[0,1]` (the default transition ignores it) and every in-range pixel of
a well-formed RGB24 frame (channel bytes `≤ 255`). -/
theorem default_transition_identity (img : Img) (W H x y : Nat)
    (progress : ℚ) (hx : x < W) (hy : y < H)
    (hp0 : 0 ≤ progress) (hp1 : progress ≤ 1)
    (hr : (img x y).1 ≤ 255) (hg : (img x y).2.1 ≤ 255)
    (hb : (img x y).2.2 ≤ 255) :
    renderReadback img W H progress x y = img x y := by
  have hW : (W : ℚ) ≠ 0 := Nat.cast_ne_zero.2 (by omega)
  have hH : (H : ℚ) ≠ 0 := Nat.cast_ne_zero.2 (by omega)
  have huv : vertexUV (pixelCenterNDC x W, pixelCenterNDC y H)
      = (((x : ℚ) + 1/2) / W, ((y : ℚ) + 1/2) / H) := by
    simp only [vertexUV, pixelCenterNDC, Prod.ext_iff]
    constructor <;> (field_simp; ring)
  simp only [renderReadback, defaultTransition]
  rw [huv]
  rw [texture2D_at_center img W H x y hx hy]
  rw [channelToByte_byte _ hr, channelToByte_byte _ hg, channelToByte_byte _ hb]

/-- Witness for C10 on a concrete 2×2 frame at pixel `(1,1)` with
`progress = 1`. -/
theorem default_transition_identity_witness :
    (1 : Nat) < 2 ∧
      renderReadback (fun x y => (40 * x + y, 7, 255)) 2 2 1 1 1
        = ((41 : Nat), (7 : Nat), (255 : Nat)) :=
  ⟨by decide, default_transition_identity (fun x y => (40 * x + y, 7, 255))
    2 2 1 1 1 (by decide) (by decide) (by norm_num) (by norm_num)
    (by decide) (by decide) (by decide)⟩

end GenericShader
